import Mathlib

/-!
Verification of the pqueue-sqlite-queue repository: a persistent priority
task queue backed by SQLite (`src/db.js`) and processed by a p-queue based
dispatcher (`src/queueService.js`, whose text is embedded in the bundled
README source file).

The development shallowly embeds the task row, the SQL operations of
`db.js` as pure state transformers on task records, and the dispatcher's
`executeTask` control flow (claim, handler lookup, best-effort payload
parsing, retry accounting) as Lean functions.  Timestamps are modelled as
natural numbers supplied by the caller (standing for `CURRENT_TIMESTAMP`
at the moment each statement runs); SQLite rows are task records; the
handler registry is a function from task names to optional handlers.
-/

namespace PQueue

/-- Task `status` column: one of `pending`, `processing`, `completed`,
`failed` (db.js schema, `status TEXT NOT NULL DEFAULT 'pending'`). -/
inductive Status where
  | pending
  | processing
  | completed
  | failed
deriving DecidableEq, Repr

/-- One row of the `tasks` table (db.js `createTablesSQL`).  `payload`,
`error_message`, `started_at`, `completed_at` are nullable columns, hence
`Option`; timestamps are abstract ticks. -/
structure Task where
  id : Nat
  name : String
  priority : Int
  status : Status
  payload : Option String
  max_retries : Nat
  retry_count : Nat
  error_message : Option String
  created_at : Nat
  updated_at : Nat
  started_at : Option Nat
  completed_at : Option Nat
deriving DecidableEq, Repr

/-- A JavaScript value, as far as the queue's payload handling observes it
(the argument of `addTask` and the result of `JSON.parse`). -/
inductive JsVal where
  | vnull
  | vundef
  | vbool (b : Bool)
  | vnum (n : Int)
  | vstr (s : String)
  | vobj (fields : List (String × JsVal))

/-- JavaScript truthiness, as used by `payload ? ... : null` in `addTask`
and `if (task.payload)` in `executeTask`: `null`, `undefined`, `false`,
`0` and the empty string are falsy; objects are always truthy. -/
def JsVal.truthy : JsVal → Bool
  | .vnull => false
  | .vundef => false
  | .vbool b => b
  | .vnum n => n != 0
  | .vstr s => s != ""
  | .vobj _ => true

mutual
/-- `JSON.stringify`, modelled on the payload values above (an external
library routine; only its observable output shape matters here). -/
def JsVal.stringify : JsVal → String
  | .vnull => "null"
  | .vundef => "null"
  | .vbool true => "true"
  | .vbool false => "false"
  | .vnum n => Int.repr n
  | .vstr s => "\"" ++ s ++ "\""
  | .vobj fields => "\x7b" ++ JsVal.stringifyFields fields ++ "\x7d"

/-- Comma-separated `"key":value` members of a stringified object. -/
def JsVal.stringifyFields : List (String × JsVal) → String
  | [] => ""
  | [(k, v)] => "\"" ++ k ++ "\":" ++ JsVal.stringify v
  | (k, v) :: rest =>
      "\"" ++ k ++ "\":" ++ JsVal.stringify v ++ "," ++ JsVal.stringifyFields rest
end

/-- The TEXT stored in the `payload` column by `addTask`:
`payload ? JSON.stringify(payload) : null`. -/
def storedPayload (payload : JsVal) : Option String :=
  if payload.truthy then some payload.stringify else none

/-- db.js `addTask(name, priority = 0, payload = null, maxRetries = 3)`:
inserts a row with `status = 'pending'` and the schema defaults
(`retry_count` 0, `error_message` NULL, `started_at`/`completed_at` NULL,
`created_at`/`updated_at` = CURRENT_TIMESTAMP); `id` is the fresh rowid. -/
def addTask (name : String) (priority : Int) (payload : JsVal)
    (maxRetries : Nat) (id now : Nat) : Task :=
  { id := id
    name := name
    priority := priority
    status := .pending
    payload := storedPayload payload
    max_retries := maxRetries
    retry_count := 0
    error_message := none
    created_at := now
    updated_at := now
    started_at := none
    completed_at := none }

/-- The WHERE clause of db.js `getPendingTasks`:
`status = 'pending' AND retry_count < max_retries`. -/
def pendingFilter (t : Task) : Bool :=
  t.status == .pending && t.retry_count < t.max_retries

/-- The ORDER BY clause of db.js `getPendingTasks`:
`priority DESC, created_at ASC` — `a` may precede `b` iff `a` has higher
priority, or equal priority and `a` was created no later. -/
def taskOrder (a b : Task) : Prop :=
  b.priority < a.priority ∨ (a.priority = b.priority ∧ a.created_at ≤ b.created_at)

instance : DecidableRel taskOrder := fun a b => by
  unfold taskOrder; infer_instance

instance : IsTotal Task taskOrder where
  total a b := by
    unfold taskOrder
    rcases lt_trichotomy a.priority b.priority with h | h | h
    · exact .inr (.inl h)
    · rcases Nat.le_total a.created_at b.created_at with h' | h'
      · exact .inl (.inr ⟨h, h'⟩)
      · exact .inr (.inr ⟨h.symm, h'⟩)
    · exact .inl (.inl h)

instance : IsTrans Task taskOrder where
  trans a b c hab hbc := by
    unfold taskOrder at *
    rcases hab with h1 | ⟨h1, h1'⟩ <;> rcases hbc with h2 | ⟨h2, h2'⟩
    · exact .inl (h2.trans h1)
    · exact .inl (h2 ▸ h1)
    · exact .inl (h1 ▸ h2)
    · exact .inr ⟨h1.trans h2, h1'.trans h2'⟩

/-- db.js `getPendingTasks(limit = 10)`: rows satisfying the WHERE clause,
in `ORDER BY priority DESC, created_at ASC` order, `LIMIT` many.  The
store is modelled as a list of rows; any ORDER-BY-compatible permutation
is a valid SQLite answer, and the embedding fixes the one produced by
insertion sort. -/
def getPendingTasks (limit : Nat) (store : List Task) : List Task :=
  (List.insertionSort taskOrder (store.filter pendingFilter)).take limit

/-- db.js `updateTaskStatus(taskId, status, errorMessage = null)`:
`SET status = ?, error_message = ?, updated_at = CURRENT_TIMESTAMP`. -/
def updateTaskStatus (status : Status) (errorMessage : Option String)
    (now : Nat) (t : Task) : Task :=
  { t with status := status, error_message := errorMessage, updated_at := now }

/-- db.js `markTaskStarted(taskId)`: `SET status = 'processing',
started_at = CURRENT_TIMESTAMP, updated_at = CURRENT_TIMESTAMP`
(unconditionally — the SQL has no guard on `started_at` being NULL). -/
def markTaskStarted (now : Nat) (t : Task) : Task :=
  { t with status := .processing, started_at := some now, updated_at := now }

/-- db.js `markTaskCompleted(taskId)`: `SET status = 'completed',
completed_at = CURRENT_TIMESTAMP, updated_at = CURRENT_TIMESTAMP`
(unconditionally). -/
def markTaskCompleted (now : Nat) (t : Task) : Task :=
  { t with status := .completed, completed_at := some now, updated_at := now }

/-- The single UPDATE statement of db.js `incrementRetryCount`:
`SET retry_count = retry_count + 1, status = 'pending',
error_message = ?, updated_at = CURRENT_TIMESTAMP`. -/
def incrementRetryCount (now : Nat) (errorMessage : Option String)
    (t : Task) : Task :=
  { t with retry_count := t.retry_count + 1
           status := .pending
           error_message := errorMessage
           updated_at := now }

/-- db.js `incrementRetryCount` as a whole: runs the UPDATE, then re-reads
the row via `getTask(taskId)` and returns `task.retry_count`.  The result
pairs the new row with the returned count. -/
def incrementRetryCountRun (now : Nat) (errorMessage : Option String)
    (t : Task) : Task × Nat :=
  let row := incrementRetryCount now errorMessage t
  (row, row.retry_count)

/-- db.js `markTaskFailed(taskId, errorMessage)`: `SET status = 'failed',
error_message = ?, updated_at = CURRENT_TIMESTAMP`. -/
def markTaskFailed (errorMessage : Option String) (now : Nat) (t : Task) : Task :=
  { t with status := .failed, error_message := errorMessage, updated_at := now }

/-! ## Dispatcher (`queueService.js`)

`executeTask(task)` runs per admitted task:
```
try {
  await markTaskStarted(task.id);
  const handler = this.taskHandlers[task.name];
  if (!handler) throw new Error(`No handler registered for task type: $\x7btask.name\x7d`);
  let payload = null;
  if (task.payload) { try { payload = JSON.parse(task.payload); } catch (e) { payload = task.payload; } }
  await handler(payload, task);
  await markTaskCompleted(task.id);
} catch (error) {
  const newRetryCount = await incrementRetryCount(task.id, error.message);
  if (newRetryCount >= task.max_retries) await markTaskFailed(task.id, error.message);
}
```
The handler receives the in-memory polled row `task` (not a re-read), and
the catch block's `task.max_retries` is likewise the polled snapshot.
`JSON.parse` is abstracted as an arbitrary partial parser
`String → Option α`, since the dispatcher only observes parse success or
failure. -/

/-- The value bound to the `payload` variable of `executeTask` and passed
to the handler: `null`, a successfully parsed value, or the raw stored
string when parsing threw. -/
inductive PayloadVal (α : Type) where
  | null
  | parsed (v : α)
  | raw (s : String)
deriving DecidableEq, Repr

/-- A task handler, as the dispatcher observes it: from the payload value
and the full task record to success or a thrown error message. -/
def Handler (α : Type) : Type :=
  PayloadVal α → Task → Except String Unit

/-- The payload-deserialization block of `executeTask`: `payload` stays
`null` when the column is NULL or the empty string (both falsy under
`if (task.payload)`); otherwise `JSON.parse` is attempted and on failure
the raw string is passed through unchanged. -/
def deserializePayload (parse : String → Option α) : Option String → PayloadVal α
  | none => .null
  | some s =>
      if s = "" then .null
      else
        match parse s with
        | some v => .parsed v
        | none => .raw s

/-- `await handler(payload, task)` with the payload block inlined: the
handler gets the deserialized payload and the full polled task record. -/
def invokeHandler (parse : String → Option α) (h : Handler α) (task : Task) :
    Except String Unit :=
  h (deserializePayload parse task.payload) task

/-- The success path of `executeTask`: `markTaskStarted` then
`markTaskCompleted`, each stamping its own CURRENT_TIMESTAMP. -/
def execSuccess (n1 n2 : Nat) (t : Task) : Task :=
  markTaskCompleted n2 (markTaskStarted n1 t)

/-- The catch block of `executeTask`, applied to the current stored row
`row` with the polled snapshot's `max_retries` as `snapMax`:
`incrementRetryCount` (returning the new count), then `markTaskFailed`
when `newRetryCount >= task.max_retries`. -/
def catchBlock (snapMax : Nat) (n2 n3 : Nat) (msg : String) (row : Task) : Task :=
  let r := incrementRetryCountRun n2 (some msg) row
  if snapMax ≤ r.2 then markTaskFailed (some msg) n3 r.1 else r.1

/-- The failure path of `executeTask` when the error is thrown after the
claim: `markTaskStarted` has already updated the row, and the catch block
runs against that row. -/
def execFail (n1 n2 n3 : Nat) (msg : String) (t : Task) : Task :=
  catchBlock t.max_retries n2 n3 msg (markTaskStarted n1 t)

/-- `QueueService.executeTask` on the fault-free store, returning the
final stored row.  The handler registry `handlers` models
`this.taskHandlers` (registration overwrites, lookup by `task.name`). -/
def executeTask (parse : String → Option α) (handlers : String → Option (Handler α))
    (n1 n2 n3 : Nat) (t : Task) : Task :=
  match handlers t.name with
  | none => execFail n1 n2 n3 ("No handler registered for task type: " ++ t.name) t
  | some h =>
      match invokeHandler parse h t with
      | .ok _ => execSuccess n1 n2 t
      | .error msg => execFail n1 n2 n3 msg t

/-- Store I/O fault injection for `executeTask`: one channel per awaited
db.js call on the execution path.  When a channel is `some e`, that call
rejects with error message `e`.  Each of `markTaskStarted`,
`markTaskCompleted`, `markTaskFailed` and the UPDATE inside
`incrementRetryCount` is a single SQL statement, so its rejection does
not mutate the row; the `getTask` re-read inside `incrementRetryCount`
is a separate awaited call that can reject after that UPDATE landed. -/
structure StoreFaults where
  startErr : Option String
  completeErr : Option String
  incUpdateErr : Option String
  incReadErr : Option String
  failErr : Option String

/-- db.js `incrementRetryCount` under fault injection: first the UPDATE
(`await dbRun(...)`; a rejection leaves the row unchanged), then the
`await getTask(taskId)` re-read whose `retry_count` is returned (a
rejection here propagates although the increment has already landed).
Result: the final row, and the returned count or the rejection. -/
def incrementRetryCountE (f : StoreFaults) (now : Nat) (msg : Option String)
    (row : Task) : Task × Except String Nat :=
  match f.incUpdateErr with
  | some e => (row, .error e)
  | none =>
      let row1 := incrementRetryCount now msg row
      match f.incReadErr with
      | some e => (row1, .error e)
      | none => (row1, .ok row1.retry_count)

/-- The catch block of `executeTask` under fault injection.  Nothing in
the catch block handles a rejection, so a rejection of the
`incrementRetryCount` UPDATE, of its count re-read, or of
`markTaskFailed` escapes `executeTask`, the row staying whatever the
statements that did land left it. -/
def catchBlockE (f : StoreFaults) (snapMax n2 n3 : Nat) (msg : String)
    (row : Task) : Task × Option String :=
  match incrementRetryCountE f n2 (some msg) row with
  | (row1, .error e) => (row1, some e)
  | (row1, .ok count) =>
      if snapMax ≤ count then
        match f.failErr with
        | some e => (row1, some e)
        | none => (markTaskFailed (some msg) n3 row1, none)
      else (row1, none)

/-- `QueueService.executeTask` with store faults: the result is the final
stored row paired with the rejection escaping `executeTask`, if any.
`markTaskStarted` and `markTaskCompleted` are awaited inside the `try`
block, so their rejections land in the same catch block as a handler
exception, carrying the I/O error's message (`markTaskStarted` having
left the row unchanged; `markTaskCompleted` rejecting after the claim
already ran). -/
def executeTaskE (parse : String → Option α) (handlers : String → Option (Handler α))
    (f : StoreFaults) (n1 n2 n3 : Nat) (t : Task) : Task × Option String :=
  match f.startErr with
  | some e => catchBlockE f t.max_retries n2 n3 e t
  | none =>
      let row := markTaskStarted n1 t
      match handlers t.name with
      | none =>
          catchBlockE f t.max_retries n2 n3
            ("No handler registered for task type: " ++ t.name) row
      | some h =>
          match invokeHandler parse h t with
          | .ok _ =>
              match f.completeErr with
              | some e => catchBlockE f t.max_retries n2 n3 e row
              | none => (markTaskCompleted n2 row, none)
          | .error msg => catchBlockE f t.max_retries n2 n3 msg row

/-! ## Single-task lifecycle as a transition system

In the single-dispatcher design (one recurring poll timer, cycles never
overlapping), a task is executed only after `getPendingTasks` returned it,
i.e. only from a state satisfying `pendingFilter`.  One `Step` is one full
`executeTask` run on the fault-free store, ending either on the success
path or on the failure path with some thrown message. -/

/-- One complete `executeTask` run on a polled task. -/
inductive Step : Task → Task → Prop
  | succeed (t : Task) (n1 n2 : Nat) (hp : pendingFilter t = true) :
      Step t (execSuccess n1 n2 t)
  | fail (t : Task) (n1 n2 n3 : Nat) (msg : String) (hp : pendingFilter t = true) :
      Step t (execFail n1 n2 n3 msg t)

/-- Task states reachable from an `addTask` insert by `executeTask` runs. -/
inductive ReachableTask : Task → Prop
  | init (name : String) (priority : Int) (payload : JsVal)
      (maxRetries id now : Nat) :
      ReachableTask (addTask name priority payload maxRetries id now)
  | step {t t' : Task} : ReachableTask t → Step t t' → ReachableTask t'

/-! ## Concrete tasks used by witnesses and counterexamples -/

/-- A fresh `email` task (priority 100, default `max_retries` 3). -/
def demoTask : Task := addTask "email" 100 (.vstr "x") 3 1 0

/-- A fresh task allowing a single attempt (`max_retries` 1). -/
def demoOne : Task := addTask "solo" 0 .vnull 1 5 0

/-- High-priority task created first (spec §8 priority-ordering example). -/
def demoA : Task := addTask "a" 100 .vnull 3 1 0

/-- Lower-priority task created second. -/
def demoB : Task := addTask "b" 50 .vnull 3 2 1

/-- A task that has been claimed and completed once. -/
def demoCompleted : Task := markTaskCompleted 5 (markTaskStarted 3 demoTask)

/-- A task claimed at tick 5, requeued by a failure at tick 6, and
claimed again at tick 9. -/
def demoReclaimed : Task :=
  markTaskStarted 9
    (incrementRetryCount 6 (some "boom")
      (markTaskStarted 5 (addTask "unreliable" 50 .vnull 3 2 0)))

/-- A fresh task with `max_retries` 3 (retry-flow scenario). -/
def demoRetry : Task := addTask "unreliable" 50 .vnull 3 7 0

/-- A fresh task with `max_retries` 2 (exhaustion-flow scenario). -/
def demoExhaust : Task := addTask "api" 60 .vnull 2 8 0

/-! ## General lemmas -/

example : (addTask "email" 100 (.vobj [("email", .vstr "u@x")]) 3 1 0).payload
    = some "\x7b\"email\":\"u@x\"\x7d" := by rfl

example : getPendingTasks 10 [demoB, demoA] = [demoA, demoB] := by decide

/-- `executeTask` always lands on the success or the failure path: the
transition system's two step shapes are exhaustive for it. -/
theorem executeTask_eq_success_or_fail (parse : String → Option α)
    (handlers : String → Option (Handler α)) (n1 n2 n3 : Nat) (t : Task) :
    executeTask parse handlers n1 n2 n3 t = execSuccess n1 n2 t ∨
    ∃ msg, executeTask parse handlers n1 n2 n3 t = execFail n1 n2 n3 msg t := by
  cases hr : handlers t.name with
  | none =>
      exact .inr ⟨"No handler registered for task type: " ++ t.name,
        by simp [executeTask, hr]⟩
  | some h =>
      cases hinv : invokeHandler parse h t with
      | ok u => exact .inl (by simp [executeTask, hr, hinv])
      | error msg => exact .inr ⟨msg, by simp [executeTask, hr, hinv]⟩

/-- Unfolding of the poll predicate into its two conjuncts. -/
theorem pendingFilter_iff (t : Task) :
    pendingFilter t = true ↔ t.status = .pending ∧ t.retry_count < t.max_retries := by
  simp [pendingFilter]

/-- `Nat.toDigitsCore` never shortens its accumulator. -/
theorem toDigitsCore_length_le (b : Nat) : ∀ (fuel n : Nat) (ds : List Char),
    ds.length ≤ (Nat.toDigitsCore b fuel n ds).length
  | 0, _, _ => Nat.le_refl _
  | fuel+1, n, ds => by
      unfold Nat.toDigitsCore
      by_cases h : n / b = 0
      · simp [h]
      · simp only [h, if_false]
        exact Nat.le_trans (by simp) (toDigitsCore_length_le b fuel (n / b) _)

/-- The decimal digit list of a natural number is never empty. -/
theorem toDigits_ne_nil (b n : Nat) : Nat.toDigits b n ≠ [] := by
  intro hc
  have h1 : 1 ≤ (Nat.toDigits b n).length := by
    unfold Nat.toDigits Nat.toDigitsCore
    by_cases h : n / b = 0
    · simp [h]
    · simp only [h, if_false]
      exact Nat.le_trans (by simp) (toDigitsCore_length_le b n (n / b) _)
  rw [hc] at h1
  simp at h1

/-- `Nat.repr` never returns the empty string. -/
theorem natRepr_ne_empty (n : Nat) : Nat.repr n ≠ "" := by
  intro he
  apply toDigits_ne_nil 10 n
  simpa [Nat.repr, List.asString, String.ext_iff] using he

/-- `Int.repr` never returns the empty string. -/
theorem intRepr_ne_empty (n : Int) : Int.repr n ≠ "" := by
  cases n with
  | ofNat m => exact natRepr_ne_empty m
  | negSucc m =>
      intro he
      have := congrArg String.length he
      simp [Int.repr, String.length_append] at this
      exact absurd this.1 (by decide)

/-- `JSON.stringify` output is never the empty string (every branch of
the model produces at least one character). -/
theorem stringify_ne_empty (p : JsVal) : p.stringify ≠ "" := by
  cases p with
  | vnull => decide
  | vundef => decide
  | vbool b => cases b <;> decide
  | vnum n => exact intRepr_ne_empty n
  | vstr s =>
      intro he
      have := congrArg String.length he
      simp [JsVal.stringify, String.length_append] at this
      exact absurd this.1.1 (by decide)
  | vobj fields =>
      intro he
      have := congrArg String.length he
      simp [JsVal.stringify, String.length_append] at this
      exact absurd this.1.1 (by decide)

/-- A single `executeTask` step keeps a `pending` result within its retry
bound: the poll guard gives `retry_count < max_retries` before the step,
and the failure path requeues as `pending` only when the incremented
count is still strictly below the snapshot's `max_retries`. -/
theorem step_pending_bound {t t' : Task} (hs : Step t t') :
    t'.status = .pending → t'.retry_count ≤ t'.max_retries := by
  cases hs with
  | succeed n1 n2 hp =>
      intro hst
      simp [execSuccess, markTaskCompleted, markTaskStarted] at hst
  | fail n1 n2 n3 msg hp =>
      have hlt := ((pendingFilter_iff t).mp hp).2
      by_cases h : t.max_retries ≤ t.retry_count + 1
      · intro hst
        simp [execFail, catchBlock, incrementRetryCountRun, incrementRetryCount,
          markTaskStarted, markTaskFailed, h] at hst
      · intro _
        simp [execFail, catchBlock, incrementRetryCountRun, incrementRetryCount,
          markTaskStarted, markTaskFailed, h]
        omega

/-- A single `executeTask` step that ends at or above the retry ceiling
ends in status `failed` (the `newRetryCount >= task.max_retries` branch). -/
theorem step_exhausted_failed {t t' : Task} (hs : Step t t') :
    t'.max_retries ≤ t'.retry_count → t'.status = .failed := by
  cases hs with
  | succeed n1 n2 hp =>
      intro hle
      have hlt := ((pendingFilter_iff t).mp hp).2
      simp [execSuccess, markTaskCompleted, markTaskStarted] at hle
      omega
  | fail n1 n2 n3 msg hp =>
      intro hle
      by_cases h : t.max_retries ≤ t.retry_count + 1
      · simp [execFail, catchBlock, incrementRetryCountRun, incrementRetryCount,
          markTaskStarted, markTaskFailed, h]
      · exfalso
        simp [execFail, catchBlock, incrementRetryCountRun, incrementRetryCount,
          markTaskStarted, markTaskFailed, h] at hle

/-! ## Claim theorems -/

/-- C1: from any reachable task state, no sequence of poll/execute steps
produces a task that is `pending` with `retry_count > max_retries`; and at
the moment a step leaves `retry_count` at or above `max_retries`, the
task's status is `failed`. -/
theorem pending_never_exceeds_max_retries :
    (∀ t : Task, ReachableTask t → t.status = .pending →
        t.retry_count ≤ t.max_retries) ∧
    (∀ t t' : Task, Step t t' → t'.max_retries ≤ t'.retry_count →
        t'.status = .failed) := by
  constructor
  · intro t ht
    induction ht with
    | init name priority payload maxRetries id now =>
        intro _
        exact Nat.zero_le _
    | step hr hs ih =>
        exact step_pending_bound hs
  · intro t t' hs
    exact step_exhausted_failed hs

/-- Witness for C1: a freshly inserted task satisfies the retry bound, and
a failing execution of a task whose retry count reaches `max_retries`
leaves it `failed`. -/
theorem pending_never_exceeds_max_retries_witness :
    demoA.retry_count ≤ demoA.max_retries ∧
    (execFail 1 2 3 "boom" demoOne).status = .failed :=
  ⟨pending_never_exceeds_max_retries.1 demoA
      (ReachableTask.init "a" 100 .vnull 3 1 0) rfl,
   pending_never_exceeds_max_retries.2 demoOne (execFail 1 2 3 "boom" demoOne)
      (Step.fail demoOne 1 2 3 "boom" (by decide)) (by decide)⟩

/-- C2 counterexample: the message recorded for a missing handler begins
with a capital `N` (`queueService.js` throws
``No handler registered for task type: ...``), so it is not exactly the
claimed lowercase string. -/
theorem missing_handler_message_counterexample :
    (executeTask (fun _ => (none : Option Unit)) (fun _ => none) 1 2 3 demoTask).error_message
      = some "No handler registered for task type: email" ∧
    (executeTask (fun _ => (none : Option Unit)) (fun _ => none) 1 2 3 demoTask).error_message
      ≠ some "no handler registered for task type: email" := by
  constructor
  · rfl
  · decide

/-- C2 amended: a task whose name has no registered handler goes through
the ordinary failure path — identical to a handler that throws — and the
recorded message is exactly `No handler registered for task type: <name>`
(capital `N`). -/
theorem missing_handler_failure_path (parse : String → Option α)
    (handlers : String → Option (Handler α)) (n1 n2 n3 : Nat) (t : Task)
    (h : handlers t.name = none) :
    executeTask parse handlers n1 n2 n3 t
      = execFail n1 n2 n3 ("No handler registered for task type: " ++ t.name) t ∧
    (executeTask parse handlers n1 n2 n3 t).error_message
      = some ("No handler registered for task type: " ++ t.name) ∧
    ∀ hthrow : Handler α,
      invokeHandler parse hthrow t
          = .error ("No handler registered for task type: " ++ t.name) →
      executeTask parse (fun _ => some hthrow) n1 n2 n3 t
        = executeTask parse handlers n1 n2 n3 t := by
  have h1 : executeTask parse handlers n1 n2 n3 t
      = execFail n1 n2 n3 ("No handler registered for task type: " ++ t.name) t := by
    simp [executeTask, h]
  refine ⟨h1, ?_, ?_⟩
  · rw [h1]
    by_cases hc : t.max_retries ≤ t.retry_count + 1 <;>
      simp [execFail, catchBlock, incrementRetryCountRun, incrementRetryCount,
        markTaskStarted, markTaskFailed, hc]
  · intro hthrow hinv
    rw [h1]
    simp [executeTask, hinv]

/-- Witness for the amended C2, on a concrete empty registry. -/
theorem missing_handler_failure_path_witness :
    executeTask (fun _ => (none : Option Unit)) (fun _ => none) 1 2 3 demoOne
      = execFail 1 2 3 ("No handler registered for task type: " ++ demoOne.name) demoOne :=
  (missing_handler_failure_path (fun _ => none) (fun _ => none) 1 2 3 demoOne rfl).1

/-- C3 counterexample: a task first claimed at tick 5, requeued by a
failure, and claimed again at tick 9 carries `started_at = 9`, not the
value 5 recorded at its first claim — the `markTaskStarted` UPDATE has no
is-unset guard. -/
theorem started_at_overwritten_counterexample :
    (markTaskStarted 5 (addTask "unreliable" 50 .vnull 3 2 0)).started_at = some 5 ∧
    demoReclaimed.started_at = some 9 ∧
    demoReclaimed.started_at ≠ some 5 := by
  refine ⟨rfl, rfl, by decide⟩

/-- C3 amended: `markTaskStarted` unconditionally sets `started_at` to
the claim's own timestamp (and the status to `processing`), so a
re-claimed task carries the time of its most recent claim. -/
theorem markTaskStarted_sets_now (now : Nat) (t : Task) :
    (markTaskStarted now t).started_at = some now ∧
    (markTaskStarted now t).status = .processing ∧
    (markTaskStarted now t).retry_count = t.retry_count ∧
    (markTaskStarted now t).error_message = t.error_message :=
  ⟨rfl, rfl, rfl, rfl⟩

/-- C4 counterexample: calling `markTaskCompleted` again at tick 9 on a
task completed at tick 5 changes `completed_at` — the UPDATE overwrites
the column unconditionally, so the second call is not a no-op. -/
theorem completed_at_not_idempotent_counterexample :
    demoCompleted.status = .completed ∧
    demoCompleted.completed_at = some 5 ∧
    (markTaskCompleted 9 demoCompleted).completed_at ≠ demoCompleted.completed_at := by
  refine ⟨rfl, rfl, by decide⟩

/-- C4 amended: `recordSuccess` on an already-`completed` task keeps the
status `completed` (a no-op on status) but overwrites `completed_at` with
the later call's timestamp. -/
theorem markTaskCompleted_overwrites (now : Nat) (t : Task)
    (_h : t.status = .completed) :
    (markTaskCompleted now t).status = .completed ∧
    (markTaskCompleted now t).completed_at = some now :=
  ⟨rfl, rfl⟩

/-- Witness for the amended C4 on a concretely completed task. -/
theorem markTaskCompleted_overwrites_witness :
    (markTaskCompleted 9 demoCompleted).status = .completed ∧
    (markTaskCompleted 9 demoCompleted).completed_at = some 9 :=
  markTaskCompleted_overwrites 9 demoCompleted rfl

/-- C5: `incrementRetryCount` is a single store update that increments
`retry_count` by one, stores the given error message, and sets the status
back to `pending` (leaving every other column except `updated_at`
untouched), and it returns exactly the incremented count it wrote. -/
theorem incrementRetryCount_atomic (now : Nat) (msg : Option String) (t : Task) :
    incrementRetryCountRun now msg t = (incrementRetryCount now msg t, t.retry_count + 1) ∧
    (incrementRetryCount now msg t).retry_count = t.retry_count + 1 ∧
    (incrementRetryCount now msg t).error_message = msg ∧
    (incrementRetryCount now msg t).status = .pending ∧
    (incrementRetryCountRun now msg t).2 = (incrementRetryCountRun now msg t).1.retry_count ∧
    (incrementRetryCount now msg t).id = t.id ∧
    (incrementRetryCount now msg t).name = t.name ∧
    (incrementRetryCount now msg t).priority = t.priority ∧
    (incrementRetryCount now msg t).payload = t.payload ∧
    (incrementRetryCount now msg t).max_retries = t.max_retries ∧
    (incrementRetryCount now msg t).created_at = t.created_at ∧
    (incrementRetryCount now msg t).started_at = t.started_at ∧
    (incrementRetryCount now msg t).completed_at = t.completed_at :=
  ⟨rfl, rfl, rfl, rfl, rfl, rfl, rfl, rfl, rfl, rfl, rfl, rfl, rfl⟩

/-- C6: a poll batch holds at most `limit` tasks, only tasks passing the
`status = 'pending' AND retry_count < max_retries` filter, in
priority-descending order with ties broken by `created_at` ascending; in
particular a strictly-higher-priority task precedes a lower-priority one,
and among equal priorities the strictly-earlier-created task precedes. -/
theorem getPendingTasks_spec (store : List Task) (limit : Nat) :
    (getPendingTasks limit store).length ≤ limit ∧
    (∀ t ∈ getPendingTasks limit store,
        t.status = .pending ∧ t.retry_count < t.max_retries) ∧
    List.Sorted taskOrder (getPendingTasks limit store) ∧
    (∀ i j : Fin (getPendingTasks limit store).length,
        ((getPendingTasks limit store).get j).priority
            < ((getPendingTasks limit store).get i).priority →
        (i : Nat) < (j : Nat)) ∧
    (∀ i j : Fin (getPendingTasks limit store).length,
        ((getPendingTasks limit store).get i).priority
            = ((getPendingTasks limit store).get j).priority →
        ((getPendingTasks limit store).get i).created_at
            < ((getPendingTasks limit store).get j).created_at →
        (i : Nat) < (j : Nat)) := by
  have hsorted : List.Sorted taskOrder (getPendingTasks limit store) :=
    List.Pairwise.sublist (List.take_sublist _ _)
      (List.sorted_insertionSort taskOrder (store.filter pendingFilter))
  have hpair : ∀ i j : Fin (getPendingTasks limit store).length,
      i < j → taskOrder ((getPendingTasks limit store).get i)
        ((getPendingTasks limit store).get j) :=
    fun i j hij => List.pairwise_iff_get.mp hsorted i j hij
  refine ⟨?_, ?_, hsorted, ?_, ?_⟩
  · exact List.length_take_le _ _
  · intro t ht
    have h1 : t ∈ List.insertionSort taskOrder (store.filter pendingFilter) :=
      List.take_subset _ _ ht
    have h2 : t ∈ store.filter pendingFilter := by
      rwa [List.mem_insertionSort] at h1
    exact (pendingFilter_iff t).mp (List.mem_filter.mp h2).2
  · intro i j hpj
    by_contra hij
    push_neg at hij
    rcases Nat.eq_or_lt_of_le hij with heq | hlt
    · have : j = i := Fin.ext heq
      rw [this] at hpj
      exact lt_irrefl _ hpj
    · rcases hpair j i hlt with h1 | ⟨h1, _⟩
      · exact lt_asymm h1 hpj
      · rw [h1] at hpj
        exact lt_irrefl _ hpj
  · intro i j hpeq hclt
    by_contra hij
    push_neg at hij
    rcases Nat.eq_or_lt_of_le hij with heq | hlt
    · have : j = i := Fin.ext heq
      rw [this] at hclt
      exact lt_irrefl _ hclt
    · rcases hpair j i hlt with h1 | ⟨h1, h2⟩
      · rw [hpeq] at h1
        exact lt_irrefl _ h1
      · exact absurd hclt (Nat.not_lt.mpr h2)

/-- Witness for C6 on the spec's two-task example: the higher-priority
task A is returned before B, and membership yields the filter facts. -/
theorem getPendingTasks_spec_witness :
    getPendingTasks 10 [demoB, demoA] = [demoA, demoB] ∧
    demoA.status = .pending ∧ demoA.retry_count < demoA.max_retries :=
  ⟨by decide, (getPendingTasks_spec [demoB, demoA] 10).2.1 demoA (by decide)⟩

/-- C7: after a handler failure the dispatcher records the failure, and
finalizes to `failed` exactly when the count returned by
`incrementRetryCount` has reached the snapshot's `max_retries`.
Concretely: failing twice then succeeding with `max_retries = 3` ends
`completed` with `retry_count = 2`, and always failing with
`max_retries = 2` ends `failed` after exactly two recorded failures,
keeping the last failure's message. -/
theorem retry_and_exhaustion_flow :
    (∀ (n1 n2 n3 : Nat) (msg : String) (t : Task),
        ((execFail n1 n2 n3 msg t).status = .failed
            ↔ t.max_retries ≤ t.retry_count + 1) ∧
        (execFail n1 n2 n3 msg t).retry_count = t.retry_count + 1 ∧
        (execFail n1 n2 n3 msg t).error_message = some msg) ∧
    (pendingFilter (execFail 1 2 2 "m1" demoRetry) = true ∧
     pendingFilter (execFail 3 4 4 "m2" (execFail 1 2 2 "m1" demoRetry)) = true ∧
     (execSuccess 5 6 (execFail 3 4 4 "m2" (execFail 1 2 2 "m1" demoRetry))).status
        = .completed ∧
     (execSuccess 5 6 (execFail 3 4 4 "m2" (execFail 1 2 2 "m1" demoRetry))).retry_count
        = 2) ∧
    (pendingFilter (execFail 1 2 2 "first failure" demoExhaust) = true ∧
     (execFail 3 4 4 "last failure" (execFail 1 2 2 "first failure" demoExhaust)).status
        = .failed ∧
     (execFail 3 4 4 "last failure" (execFail 1 2 2 "first failure" demoExhaust)).retry_count
        = 2 ∧
     (execFail 3 4 4 "last failure" (execFail 1 2 2 "first failure" demoExhaust)).error_message
        = some "last failure") := by
  refine ⟨?_, by decide, by decide⟩
  intro n1 n2 n3 msg t
  by_cases h : t.max_retries ≤ t.retry_count + 1 <;>
    simp [execFail, catchBlock, incrementRetryCountRun, incrementRetryCount,
      markTaskStarted, markTaskFailed, h]

/-- Witness for C7: a single-attempt task fails permanently on its first
failure, by the exhaustion criterion. -/
theorem retry_and_exhaustion_flow_witness :
    (execFail 1 2 3 "m" demoOne).status = .failed :=
  ((retry_and_exhaustion_flow.1 1 2 3 "m" demoOne).1).mpr (by decide)

/-- C8 counterexample: when `markTaskStarted` rejects with a store I/O
error, `executeTask`'s catch-all treats it as a task failure —
`retry_count` is incremented and the I/O error message is recorded — so
the task is not left in its prior state. -/
theorem store_fault_counterexample :
    ((executeTaskE (fun _ => (none : Option Unit)) (fun _ => some (fun _ _ => .ok ()))
        ⟨some "SQLITE_BUSY: database is locked", none, none, none, none⟩
        1 2 3 demoTask).1.retry_count
      = demoTask.retry_count + 1) ∧
    ((executeTaskE (fun _ => (none : Option Unit)) (fun _ => some (fun _ _ => .ok ()))
        ⟨some "SQLITE_BUSY: database is locked", none, none, none, none⟩
        1 2 3 demoTask).1.error_message
      = some "SQLITE_BUSY: database is locked") ∧
    demoTask.error_message = none :=
  ⟨rfl, rfl, rfl⟩

/-- C8 amended: a store I/O failure during the claim or the completion
record (`markTaskStarted` or `markTaskCompleted` rejecting) is caught by
the same catch-all as a handler exception and recorded via
`incrementRetryCount` with the I/O error's message — incrementing
`retry_count` and finalizing to `failed` exactly when the ceiling is
reached — not leaving the task in its prior state.  A rejection inside
the catch block itself is unhandled and escapes `executeTask`: if the
`incrementRetryCount` UPDATE rejects the row is unchanged by that
statement, if its count re-read rejects the increment has already
landed, and if `markTaskFailed` rejects the row stays at its
post-increment state. -/
theorem store_fault_failure_path (parse : String → Option α)
    (handlers : String → Option (Handler α)) (n1 n2 n3 : Nat) (t : Task) (e : String) :
    executeTaskE parse handlers ⟨some e, none, none, none, none⟩ n1 n2 n3 t
      = (catchBlock t.max_retries n2 n3 e t, none) ∧
    (executeTaskE parse handlers ⟨some e, none, none, none, none⟩ n1 n2 n3 t).1.retry_count
      = t.retry_count + 1 ∧
    (executeTaskE parse handlers ⟨some e, none, none, none, none⟩ n1 n2 n3 t).1.error_message
      = some e ∧
    ((executeTaskE parse handlers ⟨some e, none, none, none, none⟩ n1 n2 n3 t).1.status
        = .failed ↔ t.max_retries ≤ t.retry_count + 1) ∧
    (∀ h : Handler α, handlers t.name = some h → invokeHandler parse h t = .ok () →
        executeTaskE parse handlers ⟨none, some e, none, none, none⟩ n1 n2 n3 t
          = (catchBlock t.max_retries n2 n3 e (markTaskStarted n1 t), none)) ∧
    (∀ e2, executeTaskE parse handlers ⟨some e, none, some e2, none, none⟩ n1 n2 n3 t
        = (t, some e2)) ∧
    (∀ e2, executeTaskE parse handlers ⟨some e, none, none, some e2, none⟩ n1 n2 n3 t
        = (incrementRetryCount n2 (some e) t, some e2)) ∧
    (∀ e2, t.max_retries ≤ t.retry_count + 1 →
        executeTaskE parse handlers ⟨some e, none, none, none, some e2⟩ n1 n2 n3 t
          = (incrementRetryCount n2 (some e) t, some e2)) := by
  refine ⟨?_, ?_, ?_, ?_, ?_, fun e2 => rfl, fun e2 => rfl, ?_⟩
  · by_cases h : t.max_retries ≤ t.retry_count + 1 <;>
      simp [executeTaskE, catchBlockE, incrementRetryCountE, catchBlock,
        incrementRetryCountRun, incrementRetryCount, markTaskFailed, h]
  · by_cases h : t.max_retries ≤ t.retry_count + 1 <;>
      simp [executeTaskE, catchBlockE, incrementRetryCountE, catchBlock,
        incrementRetryCountRun, incrementRetryCount, markTaskFailed, h]
  · by_cases h : t.max_retries ≤ t.retry_count + 1 <;>
      simp [executeTaskE, catchBlockE, incrementRetryCountE, catchBlock,
        incrementRetryCountRun, incrementRetryCount, markTaskFailed, h]
  · by_cases h : t.max_retries ≤ t.retry_count + 1 <;>
      simp [executeTaskE, catchBlockE, incrementRetryCountE, catchBlock,
        incrementRetryCountRun, incrementRetryCount, markTaskFailed, h]
  · intro h hh hinv
    by_cases hc : t.max_retries ≤ t.retry_count + 1 <;>
      simp [executeTaskE, hh, hinv, catchBlockE, incrementRetryCountE, catchBlock,
        incrementRetryCountRun, incrementRetryCount, markTaskStarted, markTaskFailed, hc]
  · intro e2 hle
    simp [executeTaskE, catchBlockE, incrementRetryCountE, incrementRetryCount, hle]

/-- Witness for the amended C8: a completion-record I/O error on a task
with a succeeding handler takes the failure path, and a claim-time I/O
error whose `markTaskFailed` also rejects escapes `executeTask` with the
increment already landed. -/
theorem store_fault_failure_path_witness :
    (executeTaskE (fun _ => (none : Option Unit)) (fun _ => some (fun _ _ => .ok ()))
        ⟨none, some "SQLITE_IOERR: disk I/O error", none, none, none⟩ 1 2 3 demoTask
      = (catchBlock demoTask.max_retries 2 3 "SQLITE_IOERR: disk I/O error"
          (markTaskStarted 1 demoTask), none)) ∧
    (executeTaskE (fun _ => (none : Option Unit)) (fun _ => none)
        ⟨some "disk I/O error", none, none, none, some "database is locked"⟩ 1 2 3 demoOne
      = (incrementRetryCount 2 (some "disk I/O error") demoOne, some "database is locked")) :=
  ⟨(store_fault_failure_path (fun _ => (none : Option Unit))
      (fun _ => some (fun _ _ => .ok ())) 1 2 3 demoTask
      "SQLITE_IOERR: disk I/O error").2.2.2.2.1 (fun _ _ => .ok ()) rfl rfl,
   (store_fault_failure_path (fun _ => (none : Option Unit)) (fun _ => none) 1 2 3 demoOne
      "disk I/O error").2.2.2.2.2.2.2 "database is locked" (by decide)⟩

/-- A concrete parser used by the payload witnesses. -/
def demoParse : String → Option Nat :=
  fun s => if s = "42" then some 42 else none

/-- C9: payload handling is best-effort: a stored payload that parses
reaches the handler as the parsed value, one that does not parse reaches
it as the raw stored string unchanged, and the handler is always invoked
with the payload value together with the full task record.  `addTask`
never stores the empty string — the only falsy TEXT — so every stored
payload is NULL or a non-empty string covered by the two cases. -/
theorem payload_best_effort (α : Type) (parse : String → Option α) :
    (∀ p : JsVal, storedPayload p = none ∨
        ∃ s, storedPayload p = some s ∧ s ≠ "") ∧
    (∀ s v, s ≠ "" → parse s = some v →
        deserializePayload parse (some s) = .parsed v) ∧
    (∀ s, s ≠ "" → parse s = none →
        deserializePayload parse (some s) = .raw s) ∧
    (∀ (h : Handler α) (t : Task),
        invokeHandler parse h t = h (deserializePayload parse t.payload) t) := by
  refine ⟨?_, ?_, ?_, fun h t => rfl⟩
  · intro p
    by_cases hp : p.truthy
    · exact .inr ⟨p.stringify, by simp [storedPayload, hp], stringify_ne_empty p⟩
    · exact .inl (by simp [storedPayload, hp])
  · intro s v hs hv
    simp [deserializePayload, hs, hv]
  · intro s hs hv
    simp [deserializePayload, hs, hv]

/-- Witness for C9 with a concrete parser: a parsable payload arrives
parsed, an unparsable one arrives raw. -/
theorem payload_best_effort_witness :
    deserializePayload demoParse (some "42") = PayloadVal.parsed 42 ∧
    deserializePayload demoParse (some "oops") = PayloadVal.raw "oops" :=
  ⟨(payload_best_effort Nat demoParse).2.1 "42" 42 (by decide) (by decide),
   (payload_best_effort Nat demoParse).2.2.1 "oops" (by decide) (by decide)⟩

/-- C10: `addTask` stores NULL for every falsy payload argument — null,
undefined, `false`, `0`, and the empty string — so such a task later
presents payload `null` to its handler; only truthy payloads are
serialized and stored. -/
theorem addTask_falsy_payload_null :
    storedPayload .vnull = none ∧
    storedPayload .vundef = none ∧
    storedPayload (.vbool false) = none ∧
    storedPayload (.vnum 0) = none ∧
    storedPayload (.vstr "") = none ∧
    (∀ (name : String) (priority : Int) (p : JsVal) (maxRetries id now : Nat),
        p.truthy = false →
        (addTask name priority p maxRetries id now).payload = none) ∧
    (∀ (α : Type) (parse : String → Option α),
        deserializePayload parse none = .null) ∧
    (∀ p : JsVal, p.truthy = true → storedPayload p = some p.stringify) := by
  refine ⟨rfl, rfl, rfl, by decide, by decide, ?_, fun α parse => rfl, ?_⟩
  · intro name priority p maxRetries id now hp
    simp [addTask, storedPayload, hp]
  · intro p hp
    simp [storedPayload, hp]

/-- Witness for C10: a task inserted with payload `0` stores NULL, and a
truthy payload is serialized. -/
theorem addTask_falsy_payload_null_witness :
    (addTask "email" 100 (.vnum 0) 3 1 0).payload = none ∧
    storedPayload (.vbool true) = some "true" :=
  ⟨addTask_falsy_payload_null.2.2.2.2.2.1 "email" 100 (.vnum 0) 3 1 0 rfl,
   addTask_falsy_payload_null.2.2.2.2.2.2.2 (.vbool true) rfl⟩

end PQueue
